import Mathlib

/-!
# Verification of the PyHunter API client (src/pyhunter/pyhunter.py)

Shallow embedding of the `PyHunter` class.  Python dictionaries are modelled
as insertion-ordered association lists (`dictSet` updates an existing key in
place and appends a fresh key at the end, exactly like CPython dict
assignment).  JSON values are modelled by the inductive `JValue`.  The HTTP
transport is a black box: each method takes the `Response` the transport
would return as an explicit argument.  Python exceptions become the
`HunterError` sum; a raised exception is `Except.error`.

Crucially, the Python code aliases the shared mapping `self.base_params`
(`params = self.base_params` without a copy) in several methods and then
mutates `params` in place, so those methods mutate the client's stored
configuration.  The embedding therefore threads the client state: every
method returns its result together with the client state after the call.
-/

/-- JSON values, as decoded by `res.json()`. -/
inductive JValue where
  | null
  | bool (b : Bool)
  | int (n : Int)
  | str (s : String)
  | arr (xs : List JValue)
  | obj (fields : List (String × JValue))
deriving Repr

/-- A Python dict with string keys, as an insertion-ordered association list. -/
abbrev Params := List (String × JValue)

/-- Python dict assignment `d[k] = v`: replace in place if the key exists,
otherwise append at the end (CPython insertion-order semantics). -/
def dictSet (d : Params) (k : String) (v : JValue) : Params :=
  match d with
  | [] => [(k, v)]
  | p :: t => if p.1 = k then (k, v) :: t else p :: dictSet t k v

/-- Python dict lookup `d[k]` (as an option; `none` models `KeyError`). -/
def dictGet (d : Params) (k : String) : Option JValue :=
  (d.find? (fun p => p.1 = k)).map (fun p => p.2)

/-- Python `d.update(d2)`: assign every binding of `d2` into `d`, in order. -/
def dictUpdate (d d2 : Params) : Params :=
  d2.foldl (fun acc p => dictSet acc p.1 p.2) d

/-- Python `d.pop(k)`: remove the binding of `k` (the popped value is unused
at every call site in the source). -/
def dictPop (d : Params) (k : String) : Params :=
  d.filter (fun p => p.1 ≠ k)

/-- Python truthiness of an optional string argument: `None` and `''` are
falsy, every other string is truthy. -/
def truthyStr : Option String → Bool
  | none => false
  | some s => s != ""

/-- Python truthiness of an optional integer argument: `None` and `0` are
falsy. -/
def truthyInt : Option Int → Bool
  | none => false
  | some n => n != 0

/-- The string carried by a present optional argument (only consulted when
the argument is truthy). -/
def strVal : Option String → String
  | none => ""
  | some s => s

/-- The integer carried by a present optional argument. -/
def intVal : Option Int → Int
  | none => 0
  | some n => n

/-- The response handed back by the black-box HTTP transport.  `body = none`
models a body that is not JSON-decodable (`res.json()` would raise). -/
structure Response where
  status : Nat
  body : Option JValue
deriving Repr

/-- Exceptions the client can raise.  The first four are the library's own
exception classes from `pyhunter/exceptions.py`; `httpError` is
`requests.HTTPError` raised by `res.raise_for_status()`; the last three are
ordinary Python runtime errors escaping uncaught. -/
inductive HunterError where
  | missingCompany (msg : String)
  | missingName (msg : String)
  | hunterApi (body : JValue)
  | pyhunter (msg : String)
  | httpError (status : Nat) (body : Option JValue)
  | jsonDecodeError
  | keyError
  | typeError
deriving Repr

/-- What `_query_hunter` hands back on success: the full response in raw
mode, otherwise the unwrapped `data` payload. -/
inductive QueryResult where
  | rawResponse (r : Response)
  | data (v : JValue)
deriving Repr

/-- What a client method returns: the full raw response, a JSON payload, or
(for `email_finder`) the `(email, score)` pair. -/
inductive RetVal where
  | raw (r : Response)
  | json (v : JValue)
  | pair (email score : JValue)
deriving Repr

/-- `PyHunter._query_hunter` (pyhunter.py lines 17-32), applied to the
response the transport returns.  `raise_for_status` raises `HTTPError`
exactly for 4xx and 5xx status codes; in raw mode the full response is
returned before the body is ever decoded; otherwise `res.json()["data"]` is
extracted, with a missing `data` key (the only caught `KeyError`) converted
to `HunterApiError(res.json())`.  A non-object JSON body makes
`res.json()["data"]` raise `TypeError`, which is not caught. -/
def queryHunter (res : Response) (raw : Bool) : Except HunterError QueryResult :=
  if 400 ≤ res.status ∧ res.status < 600 then
    .error (.httpError res.status res.body)
  else if raw then
    .ok (.rawResponse res)
  else
    match res.body with
    | none => .error .jsonDecodeError
    | some (.obj d) =>
      match dictGet d "data" with
      | some v => .ok (.data v)
      | none => .error (.hunterApi (.obj d))
    | some _ => .error .typeError

/-- Shape a `_query_hunter` outcome into the plain return value used by the
methods that `return self._query_hunter(...)` directly. -/
def toRet : Except HunterError QueryResult → Except HunterError RetVal
  | .ok (.rawResponse r) => .ok (.raw r)
  | .ok (.data v) => .ok (.json v)
  | .error e => .error e

/-- The client's stored configuration: `self.api_key`, `self.base_params`
and `self.base_endpoint` as set by `__init__` and possibly mutated later. -/
structure PyHunter where
  api_key : String
  base_params : Params
  base_endpoint : String
deriving Repr

/-- `PyHunter.__init__(api_key)` (lines 12-15). -/
def PyHunter.init (key : String) : PyHunter :=
  { api_key := key
    base_params := [("api_key", .str key)]
    base_endpoint := "https://api.hunter.io/v2/\x7b\x7d" }

/-- Exception message used when neither a domain nor a company is given. -/
def noCompanyMsg : String := "You must supply at least a domain name or a company name"

/-- Exception message used when the name arguments are insufficient. -/
def noNameMsg : String := "You must supply a first name AND a last name OR a full name"

/-- Exception message used by `email_enrichment`. -/
def noEmailMsg : String := "You must supply an email or a LinkedIn handle"

/-- Exception message used by `company_enrichment`. -/
def noDomainMsg : String := "You must supply a domain name"

/-- Python `self.base_endpoint.format(path)`: substitute the path into the
template. -/
def formatEndpoint (template path : String) : String :=
  template.replace "\x7b\x7d" path

/-- One optional string argument as a payload fragment, kept only when the
argument `is not None` (the filtering used by `locals()`-based payloads). -/
def optStrEntry (k : String) : Option String → Params
  | none => []
  | some s => [(k, .str s)]

/-- One optional integer argument as a payload fragment, kept only when the
argument `is not None`. -/
def optIntEntry (k : String) : Option Int → Params
  | none => []
  | some n => [(k, .int n)]

/-- The optional-field additions of `domain_search` (lines 73-86): each of
`limit`, `offset`, `seniority`, `department`, `emails_type` is assigned into
`params` only when truthy, `emails_type` under the key `type`. -/
def domainSearchExtras (params : Params) (limit offset : Option Int)
    (seniority department emails_type : Option String) : Params :=
  let params := if truthyInt limit then dictSet params "limit" (.int (intVal limit)) else params
  let params := if truthyInt offset then dictSet params "offset" (.int (intVal offset)) else params
  let params := if truthyStr seniority then dictSet params "seniority" (.str (strVal seniority)) else params
  let params := if truthyStr department then dictSet params "department" (.str (strVal department)) else params
  let params := if truthyStr emails_type then dictSet params "type" (.str (strVal emails_type)) else params
  params

/-- Parameter construction of `domain_search` (lines 64-87): a fresh dict is
built from `domain` or `company` plus the api key, or `MissingCompanyError`
is raised; `self.base_params` is not touched. -/
def PyHunter.domain_search_params (self : PyHunter) (domain company : Option String)
    (limit offset : Option Int) (seniority department emails_type : Option String) :
    Except HunterError Params :=
  if truthyStr domain then
    .ok (domainSearchExtras [("domain", .str (strVal domain)), ("api_key", .str self.api_key)]
      limit offset seniority department emails_type)
  else if truthyStr company then
    .ok (domainSearchExtras [("company", .str (strVal company)), ("api_key", .str self.api_key)]
      limit offset seniority department emails_type)
  else
    .error (.missingCompany noCompanyMsg)

/-- `PyHunter.domain_search` (lines 34-90). -/
def PyHunter.domain_search (self : PyHunter) (domain company : Option String)
    (limit offset : Option Int) (seniority department emails_type : Option String)
    (raw : Bool) (res : Response) : Except HunterError RetVal × PyHunter :=
  match self.domain_search_params domain company limit offset seniority department emails_type with
  | .error e => (.error e, self)
  | .ok _params =>
    let _endpoint := formatEndpoint self.base_endpoint "domain-search"
    (toRet (queryHunter res raw), self)

/-- Parameter construction of `email_finder` (lines 116-137).  `params` is
`self.base_params` itself (no copy), so every assignment below also mutates
the client's stored mapping; the second component is the value of
`self.base_params` after the call, returned even when an exception is
raised (the `domain`/`company` assignment happens before the name check). -/
def PyHunter.email_finder_params (self : PyHunter)
    (domain company first_name last_name full_name : Option String) :
    Except HunterError Params × Params :=
  let params := self.base_params
  if !truthyStr domain && !truthyStr company then
    (.error (.missingCompany noCompanyMsg), params)
  else
    let params :=
      if truthyStr domain then dictSet params "domain" (.str (strVal domain))
      else if truthyStr company then dictSet params "company" (.str (strVal company))
      else params
    if !(truthyStr first_name && truthyStr last_name) && !truthyStr full_name then
      (.error (.missingName noNameMsg), params)
    else
      let params :=
        if truthyStr first_name && truthyStr last_name then
          dictSet (dictSet params "first_name" (.str (strVal first_name)))
            "last_name" (.str (strVal last_name))
        else if truthyStr full_name then
          dictSet params "full_name" (.str (strVal full_name))
        else params
      (.ok params, params)

/-- The tail of `email_finder` (lines 141-148): pass a raw response through,
otherwise extract `res['email']` and `res['score']` from the unwrapped data
(`KeyError` when a field is missing, `TypeError` when the payload is not a
dict). -/
def emailScorePair : Except HunterError QueryResult → Except HunterError RetVal
  | .error e => .error e
  | .ok (.rawResponse r) => .ok (.raw r)
  | .ok (.data d) =>
    match d with
    | .obj fields =>
      match dictGet fields "email" with
      | none => .error .keyError
      | some email =>
        match dictGet fields "score" with
        | none => .error .keyError
        | some score => .ok (.pair email score)
    | _ => .error .typeError

/-- `PyHunter.email_finder` (lines 92-148): after the query, unless raw, the
`email` and `score` fields are extracted from the data payload and returned
as a pair. -/
def PyHunter.email_finder (self : PyHunter)
    (domain company first_name last_name full_name : Option String)
    (raw : Bool) (res : Response) : Except HunterError RetVal × PyHunter :=
  match self.email_finder_params domain company first_name last_name full_name with
  | (.error e, p) => (.error e, { self with base_params := p })
  | (.ok _params, p) =>
    let _endpoint := formatEndpoint self.base_endpoint "email-finder"
    (emailScorePair (queryHunter res raw), { self with base_params := p })

/-- `PyHunter.email_verifier` (lines 150-164): fresh params, no validation,
no mutation. -/
def PyHunter.email_verifier (self : PyHunter) (email : String) (raw : Bool)
    (res : Response) : Except HunterError RetVal × PyHunter :=
  let _params : Params := [("email", .str email), ("api_key", .str self.api_key)]
  let _endpoint := formatEndpoint self.base_endpoint "email-verifier"
  (toRet (queryHunter res raw), self)

/-- Parameter construction of `email_count` (lines 181-191): `params` is
`self.base_params` itself, mutated in place by the `domain`/`company`
assignment; second component is `self.base_params` after the call. -/
def PyHunter.email_count_params (self : PyHunter) (domain company : Option String) :
    Except HunterError Params × Params :=
  let params := self.base_params
  if !truthyStr domain && !truthyStr company then
    (.error (.missingCompany noCompanyMsg), params)
  else
    let params :=
      if truthyStr domain then dictSet params "domain" (.str (strVal domain))
      else if truthyStr company then dictSet params "company" (.str (strVal company))
      else params
    (.ok params, params)

/-- `PyHunter.email_count` (lines 166-195). -/
def PyHunter.email_count (self : PyHunter) (domain company : Option String)
    (raw : Bool) (res : Response) : Except HunterError RetVal × PyHunter :=
  match self.email_count_params domain company with
  | (.error e, p) => (.error e, { self with base_params := p })
  | (.ok _params, p) =>
    let _endpoint := formatEndpoint self.base_endpoint "email-count"
    (toRet (queryHunter res raw), { self with base_params := p })

/-- `PyHunter.account_information` (lines 197-215): unless raw, the derived
field `left = available - used` is assigned into the `calls` sub-dict of the
data payload (`res['calls']['left'] = res['calls']['available'] -
res['calls']['used']`); a missing key raises `KeyError`, a non-dict payload
or non-integer operand raises `TypeError`. -/
def PyHunter.account_information (self : PyHunter) (raw : Bool) (res : Response) :
    Except HunterError RetVal × PyHunter :=
  let _endpoint := formatEndpoint self.base_endpoint "account"
  (match queryHunter res raw with
   | .error e => .error e
   | .ok (.rawResponse r) => .ok (.raw r)
   | .ok (.data d) =>
     match d with
     | .obj fields =>
       match dictGet fields "calls" with
       | none => .error .keyError
       | some (.obj calls) =>
         match dictGet calls "available" with
         | none => .error .keyError
         | some av =>
           match dictGet calls "used" with
           | none => .error .keyError
           | some us =>
             match av, us with
             | .int a, .int u =>
               .ok (.json (.obj (dictSet fields "calls"
                 (.obj (dictSet calls "left" (.int (a - u)))))))
             | _, _ => .error .typeError
       | some _ => .error .typeError
     | _ => .error .typeError,
   self)

/-- Parameter construction of `email_enrichment` (lines 230-242): the
missing-identifier check happens before `params = self.base_params`; then
each truthy argument is assigned into the shared mapping. -/
def PyHunter.email_enrichment_params (self : PyHunter)
    (email linkedin_handle clearbit_format : Option String) :
    Except HunterError Params × Params :=
  if !truthyStr email && !truthyStr linkedin_handle then
    (.error (.pyhunter noEmailMsg), self.base_params)
  else
    let params := self.base_params
    let params := if truthyStr email then dictSet params "email" (.str (strVal email)) else params
    let params :=
      if truthyStr linkedin_handle then
        dictSet params "linkedin_handle" (.str (strVal linkedin_handle))
      else params
    let params :=
      if truthyStr clearbit_format then
        dictSet params "clearbit_format" (.str (strVal clearbit_format))
      else params
    (.ok params, params)

/-- `PyHunter.email_enrichment` (lines 217-246). -/
def PyHunter.email_enrichment (self : PyHunter)
    (email linkedin_handle clearbit_format : Option String) (raw : Bool)
    (res : Response) : Except HunterError RetVal × PyHunter :=
  match self.email_enrichment_params email linkedin_handle clearbit_format with
  | (.error e, p) => (.error e, { self with base_params := p })
  | (.ok _params, p) =>
    let _endpoint := formatEndpoint self.base_endpoint "people/find"
    (toRet (queryHunter res raw), { self with base_params := p })

/-- Parameter construction of `company_enrichment` (lines 258-264): fresh
dict, `MissingCompanyError` when `domain` is falsy. -/
def PyHunter.company_enrichment_params (self : PyHunter) (domain : String)
    (clearbit_format : Option String) : Except HunterError Params :=
  if domain == "" then
    .error (.missingCompany noDomainMsg)
  else
    let params : Params := [("domain", .str domain), ("api_key", .str self.api_key)]
    let params :=
      if truthyStr clearbit_format then
        dictSet params "clearbit_format" (.str (strVal clearbit_format))
      else params
    .ok params

/-- `PyHunter.company_enrichment` (lines 248-268). -/
def PyHunter.company_enrichment (self : PyHunter) (domain : String)
    (clearbit_format : Option String) (raw : Bool) (res : Response) :
    Except HunterError RetVal × PyHunter :=
  match self.company_enrichment_params domain clearbit_format with
  | .error e => (.error e, self)
  | .ok _params =>
    let _endpoint := formatEndpoint self.base_endpoint "companies/find"
    (toRet (queryHunter res raw), self)

/-- `PyHunter.combined_enrichment` (lines 270-288): fresh dict, no
validation, no mutation. -/
def PyHunter.combined_enrichment (self : PyHunter) (email : String)
    (clearbit_format : Option String) (raw : Bool) (res : Response) :
    Except HunterError RetVal × PyHunter :=
  let params : Params := [("email", .str email), ("api_key", .str self.api_key)]
  let _params :=
    if truthyStr clearbit_format then
      dictSet params "clearbit_format" (.str (strVal clearbit_format))
    else params
  let _endpoint := formatEndpoint self.base_endpoint "combined/find"
  (toRet (queryHunter res raw), self)

/-- The `locals()`-derived argument mapping of `get_leads` (lines 316-319):
every argument that `is not None`, in parameter order, with `self` popped.
Note the presence test is `is not None`, not truthiness. -/
def getLeadsArgs (offset limit lead_list_id : Option Int)
    (first_name last_name email company phone_number twitter : Option String) : Params :=
  optIntEntry "offset" offset ++ optIntEntry "limit" limit ++
  optIntEntry "lead_list_id" lead_list_id ++
  optStrEntry "first_name" first_name ++ optStrEntry "last_name" last_name ++
  optStrEntry "email" email ++ optStrEntry "company" company ++
  optStrEntry "phone_number" phone_number ++ optStrEntry "twitter" twitter

/-- `PyHunter.get_leads` (lines 290-326): `params` is `self.base_params`
itself and `params.update(args_params)` mutates it in place.  No `raw`
parameter exists on this method. -/
def PyHunter.get_leads (self : PyHunter) (offset limit lead_list_id : Option Int)
    (first_name last_name email company phone_number twitter : Option String)
    (res : Response) : Except HunterError RetVal × PyHunter :=
  let params := dictUpdate self.base_params
    (getLeadsArgs offset limit lead_list_id first_name last_name email company
      phone_number twitter)
  let _endpoint := formatEndpoint self.base_endpoint "leads"
  (toRet (queryHunter res false), { self with base_params := params })

/-- `PyHunter.get_lead` (lines 328-340): `params` aliases `self.base_params`
but is never assigned into, so the client state is unchanged. -/
def PyHunter.get_lead (self : PyHunter) (lead_id : Int) (res : Response) :
    Except HunterError RetVal × PyHunter :=
  let _endpoint := formatEndpoint self.base_endpoint ("leads/" ++ toString lead_id)
  (toRet (queryHunter res false), self)

/-- The `locals()`-derived JSON payload of `create_lead` (lines 387-390):
required `first_name`/`last_name` always present, every optional argument
kept when `is not None`, `self` popped. -/
def createLeadPayload (first_name last_name : String)
    (email position company company_industry company_size : Option String)
    (confidence_score : Option Int)
    (website country_code postal_code source linkedin_url phone_number twitter : Option String)
    (leads_list_id : Option Int) : Params :=
  [("first_name", .str first_name), ("last_name", .str last_name)] ++
  optStrEntry "email" email ++ optStrEntry "position" position ++
  optStrEntry "company" company ++ optStrEntry "company_industry" company_industry ++
  optStrEntry "company_size" company_size ++
  optIntEntry "confidence_score" confidence_score ++
  optStrEntry "website" website ++ optStrEntry "country_code" country_code ++
  optStrEntry "postal_code" postal_code ++ optStrEntry "source" source ++
  optStrEntry "linkedin_url" linkedin_url ++ optStrEntry "phone_number" phone_number ++
  optStrEntry "twitter" twitter ++ optIntEntry "leads_list_id" leads_list_id

/-- `PyHunter.create_lead` (lines 342-396): POST with the payload; `params`
aliases `self.base_params` but is never assigned into. -/
def PyHunter.create_lead (self : PyHunter) (first_name last_name : String)
    (email position company company_industry company_size : Option String)
    (confidence_score : Option Int)
    (website country_code postal_code source linkedin_url phone_number twitter : Option String)
    (leads_list_id : Option Int) (res : Response) :
    Except HunterError RetVal × PyHunter :=
  let _payload := createLeadPayload first_name last_name email position company
    company_industry company_size confidence_score website country_code postal_code
    source linkedin_url phone_number twitter leads_list_id
  let _endpoint := formatEndpoint self.base_endpoint "leads"
  (toRet (queryHunter res false), self)

/-- The `locals()`-derived JSON payload of `update_lead` (lines 446-450):
every optional argument kept when `is not None`; `self` and `lead_id` are
popped. -/
def updateLeadPayload (first_name last_name email position company company_industry
      company_size : Option String) (confidence_score : Option Int)
    (website country_code postal_code source linkedin_url phone_number twitter : Option String)
    (leads_list_id : Option Int) : Params :=
  optStrEntry "first_name" first_name ++ optStrEntry "last_name" last_name ++
  optStrEntry "email" email ++ optStrEntry "position" position ++
  optStrEntry "company" company ++ optStrEntry "company_industry" company_industry ++
  optStrEntry "company_size" company_size ++
  optIntEntry "confidence_score" confidence_score ++
  optStrEntry "website" website ++ optStrEntry "country_code" country_code ++
  optStrEntry "postal_code" postal_code ++ optStrEntry "source" source ++
  optStrEntry "linkedin_url" linkedin_url ++ optStrEntry "phone_number" phone_number ++
  optStrEntry "twitter" twitter ++ optIntEntry "leads_list_id" leads_list_id

/-- `PyHunter.update_lead` (lines 398-456): PUT with the payload; `params`
aliases `self.base_params` but is never assigned into. -/
def PyHunter.update_lead (self : PyHunter) (lead_id : Int)
    (first_name last_name email position company company_industry
      company_size : Option String) (confidence_score : Option Int)
    (website country_code postal_code source linkedin_url phone_number twitter : Option String)
    (leads_list_id : Option Int) (res : Response) :
    Except HunterError RetVal × PyHunter :=
  let _payload := updateLeadPayload first_name last_name email position company
    company_industry company_size confidence_score website country_code postal_code
    source linkedin_url phone_number twitter leads_list_id
  let _endpoint := formatEndpoint self.base_endpoint ("leads/" ++ toString lead_id)
  (toRet (queryHunter res false), self)

/-- `PyHunter.delete_lead` (lines 458-470). -/
def PyHunter.delete_lead (self : PyHunter) (lead_id : Int) (res : Response) :
    Except HunterError RetVal × PyHunter :=
  let _endpoint := formatEndpoint self.base_endpoint ("leads/" ++ toString lead_id)
  (toRet (queryHunter res false), self)

/-- Parameter construction of `get_leads_lists` (lines 482-487): `params` is
`self.base_params` itself, mutated in place by the truthy `offset`/`limit`
assignments. -/
def PyHunter.get_leads_lists_params (self : PyHunter) (offset limit : Option Int) : Params :=
  let params := self.base_params
  let params := if truthyInt offset then dictSet params "offset" (.int (intVal offset)) else params
  let params := if truthyInt limit then dictSet params "limit" (.int (intVal limit)) else params
  params

/-- `PyHunter.get_leads_lists` (lines 472-491). -/
def PyHunter.get_leads_lists (self : PyHunter) (offset limit : Option Int)
    (res : Response) : Except HunterError RetVal × PyHunter :=
  let params := self.get_leads_lists_params offset limit
  let _endpoint := formatEndpoint self.base_endpoint "leads_lists"
  (toRet (queryHunter res false), { self with base_params := params })

/-- `PyHunter.get_leads_list` (lines 493-508). -/
def PyHunter.get_leads_list (self : PyHunter) (leads_list_id : Int) (res : Response) :
    Except HunterError RetVal × PyHunter :=
  let _endpoint := formatEndpoint self.base_endpoint ("leads_lists/" ++ toString leads_list_id)
  (toRet (queryHunter res false), self)

/-- The JSON payload of `create_leads_list`/`update_leads_list` (lines
522-524 and 544-546): `{'name': name}` plus `team_id` when truthy. -/
def leadsListPayload (name : String) (team_id : Option Int) : Params :=
  let payload : Params := [("name", .str name)]
  if truthyInt team_id then dictSet payload "team_id" (.int (intVal team_id)) else payload

/-- `PyHunter.create_leads_list` (lines 510-528): POST; `params` aliases
`self.base_params` but is never assigned into. -/
def PyHunter.create_leads_list (self : PyHunter) (name : String) (team_id : Option Int)
    (res : Response) : Except HunterError RetVal × PyHunter :=
  let _payload := leadsListPayload name team_id
  let _endpoint := formatEndpoint self.base_endpoint "leads_lists"
  (toRet (queryHunter res false), self)

/-- `PyHunter.update_leads_list` (lines 530-551): PUT. -/
def PyHunter.update_leads_list (self : PyHunter) (leads_list_id : Int) (name : String)
    (team_id : Option Int) (res : Response) : Except HunterError RetVal × PyHunter :=
  let _payload := leadsListPayload name team_id
  let _endpoint := formatEndpoint self.base_endpoint ("leads_lists/" ++ toString leads_list_id)
  (toRet (queryHunter res false), self)

/-- `PyHunter.delete_leads_list` (lines 553-568). -/
def PyHunter.delete_leads_list (self : PyHunter) (leads_list_id : Int) (res : Response) :
    Except HunterError RetVal × PyHunter :=
  let _endpoint := formatEndpoint self.base_endpoint ("leads_lists/" ++ toString leads_list_id)
  (toRet (queryHunter res false), self)

/-! ## Helper lemmas about the dictionary model and the dispatcher -/

/-- Looking up a key just assigned finds the assigned value. -/
theorem dictGet_dictSet_self (d : Params) (k : String) (v : JValue) :
    dictGet (dictSet d k v) k = some v := by
  induction d with
  | nil => simp [dictSet, dictGet, List.find?]
  | cons p t ih =>
    by_cases h : p.1 = k
    · simp [dictSet, dictGet, List.find?, h]
    · simpa [dictSet, dictGet, List.find?, h] using ih

/-- Assigning one key does not change the lookup of another. -/
theorem dictGet_dictSet_ne (d : Params) (k k2 : String) (v : JValue) (h : k ≠ k2) :
    dictGet (dictSet d k2 v) k = dictGet d k := by
  induction d with
  | nil => simp [dictSet, dictGet, List.find?, h, Ne.symm h]
  | cons p t ih =>
    by_cases hp : p.1 = k2
    · simp [dictSet, dictGet, List.find?, hp, h, Ne.symm h]
    · by_cases hk : p.1 = k
      · simp [dictSet, dictGet, List.find?, hp, hk, h, Ne.symm h]
      · simpa [dictSet, dictGet, List.find?, hp, hk] using ih

/-- Every error produced by `_query_hunter` is a transport error, a decode
error, an `HunterApiError`, or the `TypeError` of indexing a non-dict body;
in particular none of the argument-validation exceptions can come out of
it. -/
theorem queryHunter_error_forms (res : Response) (raw : Bool) (e : HunterError)
    (h : queryHunter res raw = .error e) :
    e = .httpError res.status res.body ∨ e = .jsonDecodeError ∨
      (∃ b, e = .hunterApi b) ∨ e = .typeError := by
  unfold queryHunter at h
  by_cases hs : 400 ≤ res.status ∧ res.status < 600
  · simp [hs] at h
    exact Or.inl h.symm
  · simp [hs] at h
    by_cases hr : raw = true
    · simp [hr] at h
    · simp [hr] at h
      match hb : res.body with
      | none => simp [hb] at h; simp [h]
      | some (.obj d) =>
        simp [hb] at h
        match hd : dictGet d "data" with
        | some v => simp [hd] at h
        | none =>
          simp [hd] at h
          exact Or.inr (Or.inr (Or.inl ⟨.obj d, h.symm⟩))
      | some .null => simp [hb] at h; simp [h]
      | some (.bool b) => simp [hb] at h; simp [h]
      | some (.int n) => simp [hb] at h; simp [h]
      | some (.str s) => simp [hb] at h; simp [h]
      | some (.arr xs) => simp [hb] at h; simp [h]

/-- `toRet` passes errors through unchanged in both directions. -/
theorem toRet_error (q : Except HunterError QueryResult) (e : HunterError) :
    toRet q = .error e ↔ q = .error e := by
  cases q with
  | error e2 => simp [toRet]
  | ok r => cases r <;> simp [toRet]

/-- Every error of the `email_finder` tail is either the dispatcher's error
or the `KeyError`/`TypeError` of the pair extraction. -/
theorem emailScorePair_error_forms (q : Except HunterError QueryResult) (e : HunterError)
    (h : emailScorePair q = .error e) :
    q = .error e ∨ e = .keyError ∨ e = .typeError := by
  cases q with
  | error e2 => simp [emailScorePair] at h; simp [h]
  | ok r =>
    cases r with
    | rawResponse r => simp [emailScorePair] at h
    | data d =>
      cases d with
      | obj fields =>
        simp only [emailScorePair] at h
        match h1 : dictGet fields "email" with
        | none => simp [h1] at h; simp [h]
        | some email =>
          simp only [h1] at h
          match h2 : dictGet fields "score" with
          | none => simp [h2] at h; simp [h]
          | some score => simp [h2] at h
      | null => simp [emailScorePair] at h; simp [h]
      | bool b => simp [emailScorePair] at h; simp [h]
      | int n => simp [emailScorePair] at h; simp [h]
      | str s => simp [emailScorePair] at h; simp [h]
      | arr xs => simp [emailScorePair] at h; simp [h]

/-- With a truthy identifier and truthy names, the parameter construction of
`email_finder` succeeds and stores the final mapping back into the shared
`base_params`. -/
theorem email_finder_params_ok (self : PyHunter)
    (domain company fn ln full : Option String)
    (hc : truthyStr domain = true ∨ truthyStr company = true)
    (hn : (truthyStr fn = true ∧ truthyStr ln = true) ∨ truthyStr full = true) :
    ∃ p, self.email_finder_params domain company fn ln full = (.ok p, p) := by
  unfold PyHunter.email_finder_params
  have h1 : (!truthyStr domain && !truthyStr company) = false := by
    rcases hc with h | h <;> simp [h]
  have h2 : (!(truthyStr fn && truthyStr ln) && !truthyStr full) = false := by
    rcases hn with ⟨ha, hb⟩ | h
    · simp [ha, hb]
    · simp [h]
  · simp only [h1, h2, Bool.false_eq_true, if_false]
    exact ⟨_, rfl⟩

/-- With a truthy identifier, the parameter construction of `email_count`
succeeds and stores the final mapping back into the shared `base_params`. -/
theorem email_count_params_ok (self : PyHunter) (domain company : Option String)
    (hc : truthyStr domain = true ∨ truthyStr company = true) :
    ∃ p, self.email_count_params domain company = (.ok p, p) := by
  unfold PyHunter.email_count_params
  have h1 : (!truthyStr domain && !truthyStr company) = false := by
    rcases hc with h | h <;> simp [h]
  simp only [h1, Bool.false_eq_true, if_false]
  exact ⟨_, rfl⟩

/-- With a truthy identifier, the parameter construction of
`email_enrichment` succeeds and stores the final mapping back into the
shared `base_params`. -/
theorem email_enrichment_params_ok (self : PyHunter)
    (email linkedin_handle clearbit_format : Option String)
    (hc : truthyStr email = true ∨ truthyStr linkedin_handle = true) :
    ∃ p, self.email_enrichment_params email linkedin_handle clearbit_format = (.ok p, p) := by
  unfold PyHunter.email_enrichment_params
  have h1 : (!truthyStr email && !truthyStr linkedin_handle) = false := by
    rcases hc with h | h <;> simp [h]
  simp only [h1, Bool.false_eq_true, if_false]
  exact ⟨_, rfl⟩

/-- On a success status with raw mode off and a JSON-object body holding a
`data` field, the dispatcher unwraps the payload. -/
theorem queryHunter_data (st : Nat) (hns : ¬ (400 ≤ st ∧ st < 600))
    (bd : Params) (v : JValue) (hv : dictGet bd "data" = some v) :
    queryHunter ⟨st, some (.obj bd)⟩ false = .ok (.data v) := by
  simp [queryHunter, hns, hv]

/-- On a success status with raw mode off and a JSON-object body lacking the
`data` field, the dispatcher raises `HunterApiError` with the whole body. -/
theorem queryHunter_missing_data (st : Nat) (hns : ¬ (400 ≤ st ∧ st < 600))
    (bd : Params) (hnd : dictGet bd "data" = none) (body : Option JValue)
    (hb : body = some (.obj bd)) :
    queryHunter ⟨st, body⟩ false = .error (.hunterApi (.obj bd)) := by
  subst hb
  simp [queryHunter, hns, hnd]

/-- On a 4xx/5xx status the dispatcher raises `HTTPError` regardless of the
raw flag, before the body is ever decoded. -/
theorem queryHunter_http_error (st : Nat) (h4 : 400 ≤ st) (h6 : st < 600)
    (body : Option JValue) (raw : Bool) :
    queryHunter ⟨st, body⟩ raw = .error (.httpError st body) := by
  simp [queryHunter, h4, h6]

/-- On a success status with raw mode on, the dispatcher returns the full
response unchanged. -/
theorem queryHunter_raw (st : Nat) (hns : ¬ (400 ≤ st ∧ st < 600))
    (body : Option JValue) :
    queryHunter ⟨st, body⟩ true = .ok (.rawResponse ⟨st, body⟩) := by
  simp [queryHunter, hns]

/-! ## Claims -/

/-- Claim C5: for the email finder method with `raw=false` and valid
arguments, when the transport returns a success status with JSON body
`{"data": {"email": E, "score": S}}`, the method returns the pair
`(E, S)`. -/
theorem email_finder_returns_email_score_pair
    (self : PyHunter) (domain company fn ln full : Option String)
    (hc : truthyStr domain = true ∨ truthyStr company = true)
    (hn : (truthyStr fn = true ∧ truthyStr ln = true) ∨ truthyStr full = true)
    (st : Nat) (h2 : 200 ≤ st) (h3 : st < 300)
    (fields : Params) (E S : JValue)
    (hE : dictGet fields "email" = some E) (hS : dictGet fields "score" = some S) :
    (self.email_finder domain company fn ln full false
      ⟨st, some (.obj [("data", .obj fields)])⟩).1 = .ok (.pair E S) := by
  obtain ⟨p, hp⟩ := email_finder_params_ok self domain company fn ln full hc hn
  have hns : ¬ (400 ≤ st ∧ st < 600) := by omega
  have hd : dictGet [("data", JValue.obj fields)] "data" = some (.obj fields) := rfl
  have hq := queryHunter_data st hns [("data", .obj fields)] (.obj fields) hd
  simp [PyHunter.email_finder, hp, hq, emailScorePair, hE, hS]

/-- Witness for C5: the concrete instance of the claim, with body
`{"data": {"email": "a@b.com", "score": 90}}` returning
`("a@b.com", 90)`. -/
theorem email_finder_returns_email_score_pair_witness :
    ((PyHunter.init "k").email_finder (some "a.com") none (some "Jane") (some "Doe")
      none false
      ⟨200, some (.obj [("data", .obj [("email", .str "a@b.com"), ("score", .int 90)])])⟩).1
      = .ok (.pair (.str "a@b.com") (.int 90)) :=
  email_finder_returns_email_score_pair (PyHunter.init "k") (some "a.com") none
    (some "Jane") (some "Doe") none (Or.inl (by decide)) (Or.inl ⟨by decide, by decide⟩)
    200 (by decide) (by decide)
    [("email", .str "a@b.com"), ("score", .int 90)] (.str "a@b.com") (.int 90) rfl rfl

/-- Claim C6: for the account information method with `raw=false`, when the
transport returns a success status with body
`{"data": {..., "calls": {"available": A, "used": U, ...}}}`, the method
returns the data payload with `calls.left = A - U` injected and every other
field unchanged (the result is the original payload with only the `calls`
sub-dict extended by the `left` binding). -/
theorem account_information_injects_calls_left
    (self : PyHunter) (st : Nat) (h2 : 200 ≤ st) (h3 : st < 300)
    (fields calls : Params) (a u : Int)
    (hc : dictGet fields "calls" = some (.obj calls))
    (ha : dictGet calls "available" = some (.int a))
    (hu : dictGet calls "used" = some (.int u)) :
    (self.account_information false ⟨st, some (.obj [("data", .obj fields)])⟩).1
      = .ok (.json (.obj (dictSet fields "calls"
          (.obj (dictSet calls "left" (.int (a - u))))))) := by
  have hns : ¬ (400 ≤ st ∧ st < 600) := by omega
  have hdd : dictGet [("data", JValue.obj fields)] "data" = some (.obj fields) := rfl
  have hq := queryHunter_data st hns [("data", .obj fields)] (.obj fields) hdd
  simp [PyHunter.account_information, hq, hc, ha, hu]

/-- Witness for C6: with `available = 1000` and `used = 300` the returned
payload carries `calls.left = 700`, and the unrelated `plan` field is
unchanged. -/
theorem account_information_injects_calls_left_witness :
    ((PyHunter.init "k").account_information false
      ⟨200, some (.obj [("data", .obj
        [("calls", .obj [("available", .int 1000), ("used", .int 300)]),
         ("plan", .str "free")])])⟩).1
      = .ok (.json (.obj
        [("calls", .obj [("available", .int 1000), ("used", .int 300), ("left", .int 700)]),
         ("plan", .str "free")])) :=
  account_information_injects_calls_left (PyHunter.init "k") 200 (by decide) (by decide)
    [("calls", .obj [("available", .int 1000), ("used", .int 300)]), ("plan", .str "free")]
    [("available", .int 1000), ("used", .int 300)] 1000 300 rfl rfl rfl


/-- With both identifiers truthy, `email_enrichment` builds a mapping
carrying both the `email` and the `linkedin_handle` field. -/
theorem email_enrichment_params_both (self : PyHunter) (e lh : String)
    (he : e ≠ "") (hh : lh ≠ "") (cb : Option String) :
    ∃ p, self.email_enrichment_params (some e) (some lh) cb = (.ok p, p) ∧
      dictGet p "email" = some (.str e) ∧
      dictGet p "linkedin_handle" = some (.str lh) := by
  have hte : truthyStr (some e) = true := by simp [truthyStr, he]
  have hth : truthyStr (some lh) = true := by simp [truthyStr, hh]
  unfold PyHunter.email_enrichment_params
  simp only [hte, hth, Bool.not_true, Bool.false_and, Bool.false_eq_true, if_false,
    if_true, strVal]
  by_cases hcb : truthyStr cb = true
  · simp only [hcb, if_true]
    refine ⟨_, rfl, ?_, ?_⟩
    · rw [dictGet_dictSet_ne _ "email" "clearbit_format" _ (by decide),
        dictGet_dictSet_ne _ "email" "linkedin_handle" _ (by decide),
        dictGet_dictSet_self]
    · rw [dictGet_dictSet_ne _ "linkedin_handle" "clearbit_format" _ (by decide),
        dictGet_dictSet_self]
  · simp only [hcb, if_false, Bool.false_eq_true]
    refine ⟨_, rfl, ?_, ?_⟩
    · rw [dictGet_dictSet_ne _ "email" "linkedin_handle" _ (by decide),
        dictGet_dictSet_self]
    · rw [dictGet_dictSet_self]

/-- With both `domain` and `company` truthy, `email_finder` sends only the
domain: the mapping holds `domain` and no `company` key (fresh client). -/
theorem email_finder_params_domain_precedence (key d c f : String)
    (hd : d ≠ "") (hc : c ≠ "") (hf : f ≠ "") :
    dictGet ((PyHunter.init key).email_finder_params (some d) (some c)
        none none (some f)).2 "domain" = some (.str d) ∧
    dictGet ((PyHunter.init key).email_finder_params (some d) (some c)
        none none (some f)).2 "company" = none := by
  have htd : (d != "") = true := by simp [hd]
  have htc : (c != "") = true := by simp [hc]
  have htf : (f != "") = true := by simp [hf]
  unfold PyHunter.email_finder_params PyHunter.init
  simp only [truthyStr, strVal, htd, htc, htf, Bool.not_true, Bool.false_and,
    Bool.false_eq_true, if_false, if_true, Bool.and_false, Bool.true_and,
    Bool.not_false]
  constructor
  · rw [dictGet_dictSet_ne _ "domain" "full_name" _ (by decide), dictGet_dictSet_self]
  · rw [dictGet_dictSet_ne _ "company" "full_name" _ (by decide),
      dictGet_dictSet_ne _ "company" "domain" _ (by decide)]
    rfl

/-- Claim C10: when both `email` and `linkedin_handle` are supplied to
`email_enrichment`, no error is raised — the call goes straight through to
the dispatcher — and both fields appear together in the constructed
parameter mapping, neither excluding the other; unlike `email_finder`,
where with both `domain` and `company` supplied only `domain` is sent and
`company` is absent from the mapping. -/
theorem email_enrichment_accepts_both_identifiers
    (self : PyHunter) (e lh : String) (he : e ≠ "") (hh : lh ≠ "")
    (cb : Option String) (raw : Bool) (res : Response)
    (key d c f : String) (hd : d ≠ "") (hc : c ≠ "") (hf : f ≠ "") :
    (self.email_enrichment_params (some e) (some lh) cb).1
        = .ok (self.email_enrichment_params (some e) (some lh) cb).2 ∧
    dictGet (self.email_enrichment_params (some e) (some lh) cb).2 "email"
        = some (.str e) ∧
    dictGet (self.email_enrichment_params (some e) (some lh) cb).2 "linkedin_handle"
        = some (.str lh) ∧
    (self.email_enrichment (some e) (some lh) cb raw res).1
        = toRet (queryHunter res raw) ∧
    dictGet ((PyHunter.init key).email_finder_params (some d) (some c)
        none none (some f)).2 "domain" = some (.str d) ∧
    dictGet ((PyHunter.init key).email_finder_params (some d) (some c)
        none none (some f)).2 "company" = none := by
  obtain ⟨p, hp, hpe, hph⟩ := email_enrichment_params_both self e lh he hh cb
  obtain ⟨hfd, hfc⟩ := email_finder_params_domain_precedence key d c f hd hc hf
  refine ⟨by rw [hp], by rw [hp]; exact hpe, by rw [hp]; exact hph, ?_, hfd, hfc⟩
  simp [PyHunter.email_enrichment, hp]

/-- Witness for C10: a concrete call carrying both identifiers. -/
theorem email_enrichment_accepts_both_identifiers_witness :
    (((PyHunter.init "k").email_enrichment_params (some "a@b.com") (some "jdoe") none).1
        = .ok ((PyHunter.init "k").email_enrichment_params (some "a@b.com") (some "jdoe") none).2 ∧
    dictGet ((PyHunter.init "k").email_enrichment_params (some "a@b.com") (some "jdoe") none).2
        "email" = some (.str "a@b.com") ∧
    dictGet ((PyHunter.init "k").email_enrichment_params (some "a@b.com") (some "jdoe") none).2
        "linkedin_handle" = some (.str "jdoe") ∧
    ((PyHunter.init "k").email_enrichment (some "a@b.com") (some "jdoe") none false
        ⟨200, some (.obj [("data", .null)])⟩).1
      = toRet (queryHunter ⟨200, some (.obj [("data", .null)])⟩ false) ∧
    dictGet ((PyHunter.init "key2").email_finder_params (some "a.com") (some "Acme")
        none none (some "Jane Doe")).2 "domain" = some (.str "a.com") ∧
    dictGet ((PyHunter.init "key2").email_finder_params (some "a.com") (some "Acme")
        none none (some "Jane Doe")).2 "company" = none) :=
  email_enrichment_accepts_both_identifiers (PyHunter.init "k") "a@b.com" "jdoe"
    (by decide) (by decide) none false ⟨200, some (.obj [("data", .null)])⟩
    "key2" "a.com" "Acme" "Jane Doe" (by decide) (by decide) (by decide)

/-- Does an outcome consist of a raised `MissingCompanyError`? -/
def raisesMissingCompany : Except HunterError RetVal → Bool
  | .error (.missingCompany _) => true
  | _ => false

/-- Does an outcome consist of a raised `MissingNameError`? -/
def raisesMissingName : Except HunterError RetVal → Bool
  | .error (.missingName _) => true
  | _ => false

/-- A plain dispatcher outcome never carries an argument-validation
exception of the `MissingCompanyError` kind. -/
theorem toRet_not_missingCompany (res : Response) (raw : Bool) :
    raisesMissingCompany (toRet (queryHunter res raw)) = false := by
  cases hq : toRet (queryHunter res raw) with
  | ok v => simp [raisesMissingCompany]
  | error e =>
    rw [toRet_error] at hq
    rcases queryHunter_error_forms res raw e hq with h1 | h1 | ⟨b, h1⟩ | h1 <;>
      simp [h1, raisesMissingCompany]

/-- The `email_finder` tail never produces a `MissingCompanyError`. -/
theorem emailScorePair_not_missingCompany (res : Response) (raw : Bool) :
    raisesMissingCompany (emailScorePair (queryHunter res raw)) = false := by
  cases hq : emailScorePair (queryHunter res raw) with
  | ok v => simp [raisesMissingCompany]
  | error e =>
    rcases emailScorePair_error_forms _ _ hq with h1 | h1 | h1
    · rcases queryHunter_error_forms res raw e h1 with h2 | h2 | ⟨b, h2⟩ | h2 <;>
        simp [h2, raisesMissingCompany]
    · simp [h1, raisesMissingCompany]
    · simp [h1, raisesMissingCompany]

/-- The `email_finder` tail never produces a `MissingNameError`. -/
theorem emailScorePair_not_missingName (res : Response) (raw : Bool) :
    raisesMissingName (emailScorePair (queryHunter res raw)) = false := by
  cases hq : emailScorePair (queryHunter res raw) with
  | ok v => simp [raisesMissingName]
  | error e =>
    rcases emailScorePair_error_forms _ _ hq with h1 | h1 | h1
    · rcases queryHunter_error_forms res raw e h1 with h2 | h2 | ⟨b, h2⟩ | h2 <;>
        simp [h2, raisesMissingName]
    · simp [h1, raisesMissingName]
    · simp [h1, raisesMissingName]

/-- `domain_search` with a truthy identifier never raises
`MissingCompanyError`. -/
theorem domain_search_not_missingCompany (self : PyHunter)
    (domain company : Option String) (lim off : Option Int)
    (sen dep ty : Option String)
    (hc : truthyStr domain = true ∨ truthyStr company = true)
    (raw : Bool) (res : Response) :
    raisesMissingCompany
      (self.domain_search domain company lim off sen dep ty raw res).1 = false := by
  unfold PyHunter.domain_search PyHunter.domain_search_params
  by_cases hd0 : truthyStr domain = true
  · simp only [hd0, if_true]
    exact toRet_not_missingCompany res raw
  · have hc0 : truthyStr company = true := by
      rcases hc with hx | hx
      · exact absurd hx hd0
      · exact hx
    simp only [hd0, hc0, if_false, if_true]
    exact toRet_not_missingCompany res raw

/-- `email_finder` with a truthy identifier never raises
`MissingCompanyError` (it may still raise `MissingNameError`). -/
theorem email_finder_not_missingCompany (self : PyHunter)
    (domain company fn ln full : Option String)
    (hc : truthyStr domain = true ∨ truthyStr company = true)
    (raw : Bool) (res : Response) :
    raisesMissingCompany
      (self.email_finder domain company fn ln full raw res).1 = false := by
  have h1 : (!truthyStr domain && !truthyStr company) = false := by
    rcases hc with hx | hx <;> simp [hx]
  unfold PyHunter.email_finder PyHunter.email_finder_params
  simp only [h1, Bool.false_eq_true, if_false]
  by_cases h2 : (!(truthyStr fn && truthyStr ln) && !truthyStr full) = true
  · simp only [h2, if_true]
    simp [raisesMissingCompany]
  · simp only [h2, if_false, Bool.not_eq_true] at *
    simp only [h2, Bool.false_eq_true, if_false]
    exact emailScorePair_not_missingCompany res raw

/-- `email_count` with a truthy identifier never raises
`MissingCompanyError`. -/
theorem email_count_not_missingCompany (self : PyHunter)
    (domain company : Option String)
    (hc : truthyStr domain = true ∨ truthyStr company = true)
    (raw : Bool) (res : Response) :
    raisesMissingCompany (self.email_count domain company raw res).1 = false := by
  have h1 : (!truthyStr domain && !truthyStr company) = false := by
    rcases hc with hx | hx <;> simp [hx]
  unfold PyHunter.email_count PyHunter.email_count_params
  simp only [h1, Bool.false_eq_true, if_false]
  exact toRet_not_missingCompany res raw

/-- Counterexample to claim C3 as stated: `domain_search` called with
exactly one of the pair set — `domain` supplied as the empty string,
`company` unset — still raises `MissingCompanyError`, because the source
tests presence by Python truthiness and the empty string is falsy. -/
theorem domain_search_one_set_empty_still_raises :
    ((PyHunter.init "k").domain_search (some "") none none none none none none false
      ⟨200, some (.obj [("data", .null)])⟩).1
      = .error (.missingCompany noCompanyMsg) := rfl

/-- Claim C3, amended: for each of `domain_search`, `email_finder` and
`email_count`, calling with neither `domain` nor `company` set raises
`MissingCompanyError`, and calling with exactly one of them set to a
truthy (non-empty) value never raises that error. -/
theorem identifier_pair_validation
    (self : PyHunter) (d c : String) (hd : d ≠ "") (hc : c ≠ "")
    (lim off : Option Int) (sen dep ty fn ln full : Option String)
    (raw : Bool) (res : Response) :
    ((self.domain_search none none lim off sen dep ty raw res).1
        = .error (.missingCompany noCompanyMsg) ∧
      (self.email_finder none none fn ln full raw res).1
        = .error (.missingCompany noCompanyMsg) ∧
      (self.email_count none none raw res).1
        = .error (.missingCompany noCompanyMsg)) ∧
    (raisesMissingCompany
        (self.domain_search (some d) none lim off sen dep ty raw res).1 = false ∧
      raisesMissingCompany
        (self.domain_search none (some c) lim off sen dep ty raw res).1 = false) ∧
    (raisesMissingCompany
        (self.email_finder (some d) none fn ln full raw res).1 = false ∧
      raisesMissingCompany
        (self.email_finder none (some c) fn ln full raw res).1 = false) ∧
    (raisesMissingCompany (self.email_count (some d) none raw res).1 = false ∧
      raisesMissingCompany (self.email_count none (some c) raw res).1 = false) := by
  have htd : truthyStr (some d) = true := by simp [truthyStr, hd]
  have htc : truthyStr (some c) = true := by simp [truthyStr, hc]
  refine ⟨⟨?_, ?_, ?_⟩, ⟨?_, ?_⟩, ⟨?_, ?_⟩, ⟨?_, ?_⟩⟩
  · simp [PyHunter.domain_search, PyHunter.domain_search_params, truthyStr]
  · simp [PyHunter.email_finder, PyHunter.email_finder_params, truthyStr]
  · simp [PyHunter.email_count, PyHunter.email_count_params, truthyStr]
  · exact domain_search_not_missingCompany self (some d) none lim off sen dep ty
      (Or.inl htd) raw res
  · exact domain_search_not_missingCompany self none (some c) lim off sen dep ty
      (Or.inr htc) raw res
  · exact email_finder_not_missingCompany self (some d) none fn ln full
      (Or.inl htd) raw res
  · exact email_finder_not_missingCompany self none (some c) fn ln full
      (Or.inr htc) raw res
  · exact email_count_not_missingCompany self (some d) none (Or.inl htd) raw res
  · exact email_count_not_missingCompany self none (some c) (Or.inr htc) raw res

/-- Witness for the amended C3 at concrete inputs. -/
theorem identifier_pair_validation_witness :
    (((PyHunter.init "k").domain_search none none none none none none none false
        ⟨200, some (.obj [("data", .null)])⟩).1
        = .error (.missingCompany noCompanyMsg) ∧
      ((PyHunter.init "k").email_finder none none none none (some "Jane Doe") false
        ⟨200, some (.obj [("data", .null)])⟩).1
        = .error (.missingCompany noCompanyMsg) ∧
      ((PyHunter.init "k").email_count none none false
        ⟨200, some (.obj [("data", .null)])⟩).1
        = .error (.missingCompany noCompanyMsg)) ∧
    (raisesMissingCompany
        ((PyHunter.init "k").domain_search (some "a.com") none none none none none none
          false ⟨200, some (.obj [("data", .null)])⟩).1 = false ∧
      raisesMissingCompany
        ((PyHunter.init "k").domain_search none (some "Acme") none none none none none
          false ⟨200, some (.obj [("data", .null)])⟩).1 = false) ∧
    (raisesMissingCompany
        ((PyHunter.init "k").email_finder (some "a.com") none none none (some "Jane Doe")
          false ⟨200, some (.obj [("data", .null)])⟩).1 = false ∧
      raisesMissingCompany
        ((PyHunter.init "k").email_finder none (some "Acme") none none (some "Jane Doe")
          false ⟨200, some (.obj [("data", .null)])⟩).1 = false) ∧
    (raisesMissingCompany
        ((PyHunter.init "k").email_count (some "a.com") none false
          ⟨200, some (.obj [("data", .null)])⟩).1 = false ∧
      raisesMissingCompany
        ((PyHunter.init "k").email_count none (some "Acme") false
          ⟨200, some (.obj [("data", .null)])⟩).1 = false) :=
  identifier_pair_validation (PyHunter.init "k") "a.com" "Acme" (by decide) (by decide)
    none none none none none none none (some "Jane Doe") false
    ⟨200, some (.obj [("data", .null)])⟩

/-- `email_finder` with a truthy identifier and either truthy first+last
names or a truthy full name never raises `MissingNameError`. -/
theorem email_finder_not_missingName (self : PyHunter)
    (domain company fn ln full : Option String)
    (hc : truthyStr domain = true ∨ truthyStr company = true)
    (hn : (truthyStr fn = true ∧ truthyStr ln = true) ∨ truthyStr full = true)
    (raw : Bool) (res : Response) :
    raisesMissingName (self.email_finder domain company fn ln full raw res).1 = false := by
  obtain ⟨p, hp⟩ := email_finder_params_ok self domain company fn ln full hc hn
  simp only [PyHunter.email_finder, hp]
  exact emailScorePair_not_missingName res raw

/-- Counterexample to claim C4 as stated: `email_finder` with a valid
domain and `full_name` alone set — but set to the empty string — raises
`MissingNameError`, because the source tests the name arguments by Python
truthiness and the empty string is falsy. -/
theorem email_finder_full_name_empty_still_raises :
    ((PyHunter.init "k").email_finder (some "a.com") none none none (some "") false
      ⟨200, some (.obj [("data", .null)])⟩).1
      = .error (.missingName noNameMsg) := rfl

/-- Claim C4, amended: for `email_finder` with a valid (non-empty) domain,
calling with only `first_name` set (no `last_name`, no `full_name`) raises
`MissingNameError`; calling with both `first_name` and `last_name` set to
truthy (non-empty) values, or with `full_name` alone set to a truthy value,
does not raise it. -/
theorem email_finder_name_validation
    (self : PyHunter) (d fn ln full : String)
    (hd : d ≠ "") (hfn : fn ≠ "") (hln : ln ≠ "") (hfull : full ≠ "")
    (raw : Bool) (res : Response) :
    (self.email_finder (some d) none (some fn) none none raw res).1
        = .error (.missingName noNameMsg) ∧
    raisesMissingName
      (self.email_finder (some d) none (some fn) (some ln) none raw res).1 = false ∧
    raisesMissingName
      (self.email_finder (some d) none none none (some full) raw res).1 = false := by
  have htd : truthyStr (some d) = true := by simp [truthyStr, hd]
  have htfn : truthyStr (some fn) = true := by simp [truthyStr, hfn]
  have htln : truthyStr (some ln) = true := by simp [truthyStr, hln]
  have htfull : truthyStr (some full) = true := by simp [truthyStr, hfull]
  refine ⟨?_, ?_, ?_⟩
  · simp [PyHunter.email_finder, PyHunter.email_finder_params, htd, htfn, truthyStr, hd]
  · exact email_finder_not_missingName self (some d) none (some fn) (some ln) none
      (Or.inl htd) (Or.inl ⟨htfn, htln⟩) raw res
  · exact email_finder_not_missingName self (some d) none none none (some full)
      (Or.inl htd) (Or.inr htfull) raw res

/-- Witness for the amended C4 at concrete inputs. -/
theorem email_finder_name_validation_witness :
    (((PyHunter.init "k").email_finder (some "a.com") none (some "Jane") none none false
        ⟨200, some (.obj [("data", .null)])⟩).1
        = .error (.missingName noNameMsg) ∧
      raisesMissingName
        ((PyHunter.init "k").email_finder (some "a.com") none (some "Jane") (some "Doe")
          none false ⟨200, some (.obj [("data", .null)])⟩).1 = false ∧
      raisesMissingName
        ((PyHunter.init "k").email_finder (some "a.com") none none none
          (some "Jane Doe") false ⟨200, some (.obj [("data", .null)])⟩).1 = false) :=
  email_finder_name_validation (PyHunter.init "k") "a.com" "Jane" "Doe" "Jane Doe"
    (by decide) (by decide) (by decide) (by decide) false
    ⟨200, some (.obj [("data", .null)])⟩

/-- Claim C8: for every method of the client and every value of the raw
flag (methods without a raw parameter always use raw=false), when the
transport reports an error status (4xx/5xx, e.g. 401), the method raises
the `HTTPError` carrying the status and body, propagated immediately with
no retry and no envelope unwrapping or post-processing. -/
theorem non_success_status_raises_http_error
    (self : PyHunter) (st : Nat) (body : Option JValue)
    (h4 : 400 ≤ st) (h6 : st < 600) (rw : Bool)
    (v : String) (hv : v ≠ "") (lid : Int) :
    (self.domain_search (some v) none none none none none none rw ⟨st, body⟩).1
        = .error (.httpError st body) ∧
    (self.email_finder (some v) none (some v) (some v) none rw ⟨st, body⟩).1
        = .error (.httpError st body) ∧
    (self.email_verifier v rw ⟨st, body⟩).1 = .error (.httpError st body) ∧
    (self.email_count (some v) none rw ⟨st, body⟩).1 = .error (.httpError st body) ∧
    (self.account_information rw ⟨st, body⟩).1 = .error (.httpError st body) ∧
    (self.email_enrichment (some v) none none rw ⟨st, body⟩).1
        = .error (.httpError st body) ∧
    (self.company_enrichment v none rw ⟨st, body⟩).1 = .error (.httpError st body) ∧
    (self.combined_enrichment v none rw ⟨st, body⟩).1 = .error (.httpError st body) ∧
    (self.get_leads none none none none none none none none none ⟨st, body⟩).1
        = .error (.httpError st body) ∧
    (self.get_lead lid ⟨st, body⟩).1 = .error (.httpError st body) ∧
    (self.create_lead v v none none none none none none none none none none none
        none none none ⟨st, body⟩).1 = .error (.httpError st body) ∧
    (self.update_lead lid none none none none none none none none none none none
        none none none none none ⟨st, body⟩).1 = .error (.httpError st body) ∧
    (self.delete_lead lid ⟨st, body⟩).1 = .error (.httpError st body) ∧
    (self.get_leads_lists none none ⟨st, body⟩).1 = .error (.httpError st body) ∧
    (self.get_leads_list lid ⟨st, body⟩).1 = .error (.httpError st body) ∧
    (self.create_leads_list v none ⟨st, body⟩).1 = .error (.httpError st body) ∧
    (self.update_leads_list lid v none ⟨st, body⟩).1 = .error (.httpError st body) ∧
    (self.delete_leads_list lid ⟨st, body⟩).1 = .error (.httpError st body) := by
  have hq : ∀ r, queryHunter ⟨st, body⟩ r = .error (.httpError st body) :=
    fun r => queryHunter_http_error st h4 h6 body r
  have htv : truthyStr (some v) = true := by simp [truthyStr, hv]
  have hvb : (v == "") = false := by simp [hv]
  obtain ⟨p1, hp1⟩ := email_finder_params_ok self (some v) none (some v) (some v) none
    (Or.inl htv) (Or.inl ⟨htv, htv⟩)
  obtain ⟨p2, hp2⟩ := email_count_params_ok self (some v) none (Or.inl htv)
  obtain ⟨p3, hp3⟩ := email_enrichment_params_ok self (some v) none none (Or.inl htv)
  refine ⟨?_, ?_, ?_, ?_, ?_, ?_, ?_, ?_, ?_, ?_, ?_, ?_, ?_, ?_, ?_, ?_, ?_, ?_⟩
  · simp [PyHunter.domain_search, PyHunter.domain_search_params, htv, hq, toRet]
  · simp [PyHunter.email_finder, hp1, hq, emailScorePair]
  · simp [PyHunter.email_verifier, hq, toRet]
  · simp [PyHunter.email_count, hp2, hq, toRet]
  · simp [PyHunter.account_information, hq]
  · simp [PyHunter.email_enrichment, hp3, hq, toRet]
  · simp [PyHunter.company_enrichment, PyHunter.company_enrichment_params, hvb, hq, toRet]
  · simp [PyHunter.combined_enrichment, hq, toRet]
  · simp [PyHunter.get_leads, hq, toRet]
  · simp [PyHunter.get_lead, hq, toRet]
  · simp [PyHunter.create_lead, hq, toRet]
  · simp [PyHunter.update_lead, hq, toRet]
  · simp [PyHunter.delete_lead, hq, toRet]
  · simp [PyHunter.get_leads_lists, hq, toRet]
  · simp [PyHunter.get_leads_list, hq, toRet]
  · simp [PyHunter.create_leads_list, hq, toRet]
  · simp [PyHunter.update_leads_list, hq, toRet]
  · simp [PyHunter.delete_leads_list, hq, toRet]

/-- Witness for C8: a 401 response with an undecodable body raises
`HTTPError 401` from every method, here with raw mode on where the method
has it. -/
theorem non_success_status_raises_http_error_witness :
    (((PyHunter.init "k").domain_search (some "a.com") none none none none none none
        true ⟨401, none⟩).1 = .error (.httpError 401 none) ∧
    ((PyHunter.init "k").email_finder (some "a.com") none (some "a.com") (some "a.com")
        none true ⟨401, none⟩).1 = .error (.httpError 401 none) ∧
    ((PyHunter.init "k").email_verifier "a.com" true ⟨401, none⟩).1
        = .error (.httpError 401 none) ∧
    ((PyHunter.init "k").email_count (some "a.com") none true ⟨401, none⟩).1
        = .error (.httpError 401 none) ∧
    ((PyHunter.init "k").account_information true ⟨401, none⟩).1
        = .error (.httpError 401 none) ∧
    ((PyHunter.init "k").email_enrichment (some "a.com") none none true ⟨401, none⟩).1
        = .error (.httpError 401 none) ∧
    ((PyHunter.init "k").company_enrichment "a.com" none true ⟨401, none⟩).1
        = .error (.httpError 401 none) ∧
    ((PyHunter.init "k").combined_enrichment "a.com" none true ⟨401, none⟩).1
        = .error (.httpError 401 none) ∧
    ((PyHunter.init "k").get_leads none none none none none none none none none
        ⟨401, none⟩).1 = .error (.httpError 401 none) ∧
    ((PyHunter.init "k").get_lead 7 ⟨401, none⟩).1 = .error (.httpError 401 none) ∧
    ((PyHunter.init "k").create_lead "a.com" "a.com" none none none none none none
        none none none none none none none none ⟨401, none⟩).1
        = .error (.httpError 401 none) ∧
    ((PyHunter.init "k").update_lead 7 none none none none none none none none none
        none none none none none none none ⟨401, none⟩).1
        = .error (.httpError 401 none) ∧
    ((PyHunter.init "k").delete_lead 7 ⟨401, none⟩).1 = .error (.httpError 401 none) ∧
    ((PyHunter.init "k").get_leads_lists none none ⟨401, none⟩).1
        = .error (.httpError 401 none) ∧
    ((PyHunter.init "k").get_leads_list 7 ⟨401, none⟩).1
        = .error (.httpError 401 none) ∧
    ((PyHunter.init "k").create_leads_list "a.com" none ⟨401, none⟩).1
        = .error (.httpError 401 none) ∧
    ((PyHunter.init "k").update_leads_list 7 "a.com" none ⟨401, none⟩).1
        = .error (.httpError 401 none) ∧
    ((PyHunter.init "k").delete_leads_list 7 ⟨401, none⟩).1
        = .error (.httpError 401 none)) :=
  non_success_status_raises_http_error (PyHunter.init "k") 401 none
    (by decide) (by decide) true "a.com" (by decide) 7

/-- Claim C7: for every method called with raw=false (methods without a raw
parameter always behave so) and valid arguments, when the transport returns
a success status and a JSON-object body lacking the `data` field, the
method raises `HunterApiError` carrying the entire decoded body. -/
theorem missing_data_field_raises_hunter_api_error
    (self : PyHunter) (st : Nat) (h2 : 200 ≤ st) (h3 : st < 300)
    (bd : Params) (hnd : dictGet bd "data" = none)
    (v : String) (hv : v ≠ "") (lid : Int) :
    (self.domain_search (some v) none none none none none none false
        ⟨st, some (.obj bd)⟩).1 = .error (.hunterApi (.obj bd)) ∧
    (self.email_finder (some v) none (some v) (some v) none false
        ⟨st, some (.obj bd)⟩).1 = .error (.hunterApi (.obj bd)) ∧
    (self.email_verifier v false ⟨st, some (.obj bd)⟩).1
        = .error (.hunterApi (.obj bd)) ∧
    (self.email_count (some v) none false ⟨st, some (.obj bd)⟩).1
        = .error (.hunterApi (.obj bd)) ∧
    (self.account_information false ⟨st, some (.obj bd)⟩).1
        = .error (.hunterApi (.obj bd)) ∧
    (self.email_enrichment (some v) none none false ⟨st, some (.obj bd)⟩).1
        = .error (.hunterApi (.obj bd)) ∧
    (self.company_enrichment v none false ⟨st, some (.obj bd)⟩).1
        = .error (.hunterApi (.obj bd)) ∧
    (self.combined_enrichment v none false ⟨st, some (.obj bd)⟩).1
        = .error (.hunterApi (.obj bd)) ∧
    (self.get_leads none none none none none none none none none
        ⟨st, some (.obj bd)⟩).1 = .error (.hunterApi (.obj bd)) ∧
    (self.get_lead lid ⟨st, some (.obj bd)⟩).1 = .error (.hunterApi (.obj bd)) ∧
    (self.create_lead v v none none none none none none none none none none none
        none none none ⟨st, some (.obj bd)⟩).1 = .error (.hunterApi (.obj bd)) ∧
    (self.update_lead lid none none none none none none none none none none none
        none none none none none ⟨st, some (.obj bd)⟩).1
        = .error (.hunterApi (.obj bd)) ∧
    (self.delete_lead lid ⟨st, some (.obj bd)⟩).1 = .error (.hunterApi (.obj bd)) ∧
    (self.get_leads_lists none none ⟨st, some (.obj bd)⟩).1
        = .error (.hunterApi (.obj bd)) ∧
    (self.get_leads_list lid ⟨st, some (.obj bd)⟩).1
        = .error (.hunterApi (.obj bd)) ∧
    (self.create_leads_list v none ⟨st, some (.obj bd)⟩).1
        = .error (.hunterApi (.obj bd)) ∧
    (self.update_leads_list lid v none ⟨st, some (.obj bd)⟩).1
        = .error (.hunterApi (.obj bd)) ∧
    (self.delete_leads_list lid ⟨st, some (.obj bd)⟩).1
        = .error (.hunterApi (.obj bd)) := by
  have hns : ¬ (400 ≤ st ∧ st < 600) := by omega
  have hq : queryHunter ⟨st, some (.obj bd)⟩ false = .error (.hunterApi (.obj bd)) :=
    queryHunter_missing_data st hns bd hnd _ rfl
  have htv : truthyStr (some v) = true := by simp [truthyStr, hv]
  have hvb : (v == "") = false := by simp [hv]
  obtain ⟨p1, hp1⟩ := email_finder_params_ok self (some v) none (some v) (some v) none
    (Or.inl htv) (Or.inl ⟨htv, htv⟩)
  obtain ⟨p2, hp2⟩ := email_count_params_ok self (some v) none (Or.inl htv)
  obtain ⟨p3, hp3⟩ := email_enrichment_params_ok self (some v) none none (Or.inl htv)
  refine ⟨?_, ?_, ?_, ?_, ?_, ?_, ?_, ?_, ?_, ?_, ?_, ?_, ?_, ?_, ?_, ?_, ?_, ?_⟩
  · simp [PyHunter.domain_search, PyHunter.domain_search_params, htv, hq, toRet]
  · simp [PyHunter.email_finder, hp1, hq, emailScorePair]
  · simp [PyHunter.email_verifier, hq, toRet]
  · simp [PyHunter.email_count, hp2, hq, toRet]
  · simp [PyHunter.account_information, hq]
  · simp [PyHunter.email_enrichment, hp3, hq, toRet]
  · simp [PyHunter.company_enrichment, PyHunter.company_enrichment_params, hvb, hq, toRet]
  · simp [PyHunter.combined_enrichment, hq, toRet]
  · simp [PyHunter.get_leads, hq, toRet]
  · simp [PyHunter.get_lead, hq, toRet]
  · simp [PyHunter.create_lead, hq, toRet]
  · simp [PyHunter.update_lead, hq, toRet]
  · simp [PyHunter.delete_lead, hq, toRet]
  · simp [PyHunter.get_leads_lists, hq, toRet]
  · simp [PyHunter.get_leads_list, hq, toRet]
  · simp [PyHunter.create_leads_list, hq, toRet]
  · simp [PyHunter.update_leads_list, hq, toRet]
  · simp [PyHunter.delete_leads_list, hq, toRet]

/-- Witness for C7: a 200 response with body `{"error": "invalid key"}`
(no `data` field) makes every method raise `HunterApiError` carrying that
body. -/
theorem missing_data_field_raises_hunter_api_error_witness :
    (((PyHunter.init "k").domain_search (some "a.com") none none none none none none
        false ⟨200, some (.obj [("error", .str "invalid key")])⟩).1
        = .error (.hunterApi (.obj [("error", .str "invalid key")])) ∧
    ((PyHunter.init "k").email_finder (some "a.com") none (some "a.com") (some "a.com")
        none false ⟨200, some (.obj [("error", .str "invalid key")])⟩).1
        = .error (.hunterApi (.obj [("error", .str "invalid key")])) ∧
    ((PyHunter.init "k").email_verifier "a.com" false
        ⟨200, some (.obj [("error", .str "invalid key")])⟩).1
        = .error (.hunterApi (.obj [("error", .str "invalid key")])) ∧
    ((PyHunter.init "k").email_count (some "a.com") none false
        ⟨200, some (.obj [("error", .str "invalid key")])⟩).1
        = .error (.hunterApi (.obj [("error", .str "invalid key")])) ∧
    ((PyHunter.init "k").account_information false
        ⟨200, some (.obj [("error", .str "invalid key")])⟩).1
        = .error (.hunterApi (.obj [("error", .str "invalid key")])) ∧
    ((PyHunter.init "k").email_enrichment (some "a.com") none none false
        ⟨200, some (.obj [("error", .str "invalid key")])⟩).1
        = .error (.hunterApi (.obj [("error", .str "invalid key")])) ∧
    ((PyHunter.init "k").company_enrichment "a.com" none false
        ⟨200, some (.obj [("error", .str "invalid key")])⟩).1
        = .error (.hunterApi (.obj [("error", .str "invalid key")])) ∧
    ((PyHunter.init "k").combined_enrichment "a.com" none false
        ⟨200, some (.obj [("error", .str "invalid key")])⟩).1
        = .error (.hunterApi (.obj [("error", .str "invalid key")])) ∧
    ((PyHunter.init "k").get_leads none none none none none none none none none
        ⟨200, some (.obj [("error", .str "invalid key")])⟩).1
        = .error (.hunterApi (.obj [("error", .str "invalid key")])) ∧
    ((PyHunter.init "k").get_lead 7
        ⟨200, some (.obj [("error", .str "invalid key")])⟩).1
        = .error (.hunterApi (.obj [("error", .str "invalid key")])) ∧
    ((PyHunter.init "k").create_lead "a.com" "a.com" none none none none none none
        none none none none none none none none
        ⟨200, some (.obj [("error", .str "invalid key")])⟩).1
        = .error (.hunterApi (.obj [("error", .str "invalid key")])) ∧
    ((PyHunter.init "k").update_lead 7 none none none none none none none none none
        none none none none none none none
        ⟨200, some (.obj [("error", .str "invalid key")])⟩).1
        = .error (.hunterApi (.obj [("error", .str "invalid key")])) ∧
    ((PyHunter.init "k").delete_lead 7
        ⟨200, some (.obj [("error", .str "invalid key")])⟩).1
        = .error (.hunterApi (.obj [("error", .str "invalid key")])) ∧
    ((PyHunter.init "k").get_leads_lists none none
        ⟨200, some (.obj [("error", .str "invalid key")])⟩).1
        = .error (.hunterApi (.obj [("error", .str "invalid key")])) ∧
    ((PyHunter.init "k").get_leads_list 7
        ⟨200, some (.obj [("error", .str "invalid key")])⟩).1
        = .error (.hunterApi (.obj [("error", .str "invalid key")])) ∧
    ((PyHunter.init "k").create_leads_list "a.com" none
        ⟨200, some (.obj [("error", .str "invalid key")])⟩).1
        = .error (.hunterApi (.obj [("error", .str "invalid key")])) ∧
    ((PyHunter.init "k").update_leads_list 7 "a.com" none
        ⟨200, some (.obj [("error", .str "invalid key")])⟩).1
        = .error (.hunterApi (.obj [("error", .str "invalid key")])) ∧
    ((PyHunter.init "k").delete_leads_list 7
        ⟨200, some (.obj [("error", .str "invalid key")])⟩).1
        = .error (.hunterApi (.obj [("error", .str "invalid key")]))) :=
  missing_data_field_raises_hunter_api_error (PyHunter.init "k") 200
    (by decide) (by decide) [("error", .str "invalid key")] rfl "a.com" (by decide) 7

/-- Claim C9: every method accepting the raw flag, called with raw=true,
valid arguments and a success transport status, returns the full response
object unchanged — bypassing envelope unwrapping and post-processing — even
when the body is not JSON-decodable (`body = none`). -/
theorem raw_mode_returns_full_response
    (self : PyHunter) (st : Nat) (h2 : 200 ≤ st) (h3 : st < 300)
    (body : Option JValue) (v : String) (hv : v ≠ "") :
    (self.domain_search (some v) none none none none none none true ⟨st, body⟩).1
        = .ok (.raw ⟨st, body⟩) ∧
    (self.email_finder (some v) none (some v) (some v) none true ⟨st, body⟩).1
        = .ok (.raw ⟨st, body⟩) ∧
    (self.email_verifier v true ⟨st, body⟩).1 = .ok (.raw ⟨st, body⟩) ∧
    (self.email_count (some v) none true ⟨st, body⟩).1 = .ok (.raw ⟨st, body⟩) ∧
    (self.account_information true ⟨st, body⟩).1 = .ok (.raw ⟨st, body⟩) ∧
    (self.email_enrichment (some v) none none true ⟨st, body⟩).1
        = .ok (.raw ⟨st, body⟩) ∧
    (self.company_enrichment v none true ⟨st, body⟩).1 = .ok (.raw ⟨st, body⟩) ∧
    (self.combined_enrichment v none true ⟨st, body⟩).1 = .ok (.raw ⟨st, body⟩) := by
  have hns : ¬ (400 ≤ st ∧ st < 600) := by omega
  have hq : queryHunter ⟨st, body⟩ true = .ok (.rawResponse ⟨st, body⟩) :=
    queryHunter_raw st hns body
  have htv : truthyStr (some v) = true := by simp [truthyStr, hv]
  have hvb : (v == "") = false := by simp [hv]
  obtain ⟨p1, hp1⟩ := email_finder_params_ok self (some v) none (some v) (some v) none
    (Or.inl htv) (Or.inl ⟨htv, htv⟩)
  obtain ⟨p2, hp2⟩ := email_count_params_ok self (some v) none (Or.inl htv)
  obtain ⟨p3, hp3⟩ := email_enrichment_params_ok self (some v) none none (Or.inl htv)
  refine ⟨?_, ?_, ?_, ?_, ?_, ?_, ?_, ?_⟩
  · simp [PyHunter.domain_search, PyHunter.domain_search_params, htv, hq, toRet]
  · simp [PyHunter.email_finder, hp1, hq, emailScorePair]
  · simp [PyHunter.email_verifier, hq, toRet]
  · simp [PyHunter.email_count, hp2, hq, toRet]
  · simp [PyHunter.account_information, hq]
  · simp [PyHunter.email_enrichment, hp3, hq, toRet]
  · simp [PyHunter.company_enrichment, PyHunter.company_enrichment_params, hvb, hq, toRet]
  · simp [PyHunter.combined_enrichment, hq, toRet]

/-- Witness for C9: a 204 response whose body is not JSON-decodable is
returned whole by every raw-capable method in raw mode. -/
theorem raw_mode_returns_full_response_witness :
    (((PyHunter.init "k").domain_search (some "a.com") none none none none none none
        true ⟨204, none⟩).1 = .ok (.raw ⟨204, none⟩) ∧
    ((PyHunter.init "k").email_finder (some "a.com") none (some "a.com") (some "a.com")
        none true ⟨204, none⟩).1 = .ok (.raw ⟨204, none⟩) ∧
    ((PyHunter.init "k").email_verifier "a.com" true ⟨204, none⟩).1
        = .ok (.raw ⟨204, none⟩) ∧
    ((PyHunter.init "k").email_count (some "a.com") none true ⟨204, none⟩).1
        = .ok (.raw ⟨204, none⟩) ∧
    ((PyHunter.init "k").account_information true ⟨204, none⟩).1
        = .ok (.raw ⟨204, none⟩) ∧
    ((PyHunter.init "k").email_enrichment (some "a.com") none none true ⟨204, none⟩).1
        = .ok (.raw ⟨204, none⟩) ∧
    ((PyHunter.init "k").company_enrichment "a.com" none true ⟨204, none⟩).1
        = .ok (.raw ⟨204, none⟩) ∧
    ((PyHunter.init "k").combined_enrichment "a.com" none true ⟨204, none⟩).1
        = .ok (.raw ⟨204, none⟩)) :=
  raw_mode_returns_full_response (PyHunter.init "k") 204 (by decide) (by decide)
    none "a.com" (by decide)

/-- Claim C1 is violated by the code: `email_count` binds
`params = self.base_params` without copying and then assigns into `params`,
so the call mutates the client's stored configuration.  On a fresh client
whose base mapping is exactly `{'api_key': 'k'}`, one successful
`email_count(domain='a.com')` call leaves `base_params` with an extra
`domain` key, so the base parameter mapping no longer maps exactly
`api_key` to the constructor's key. -/
theorem email_count_mutates_client_configuration :
    (PyHunter.init "k").base_params = [("api_key", .str "k")] ∧
    ((PyHunter.init "k").email_count (some "a.com") none false
        ⟨200, some (.obj [("data", .null)])⟩).2.base_params
      = [("api_key", .str "k"), ("domain", .str "a.com")] :=
  ⟨rfl, rfl⟩

/-- Claim C2 is violated by the code: after `email_count(domain='a.com')`
has mutated the shared `base_params`, a second call
`email_count(company='Acme')` — with `domain` left unset — builds a
parameter mapping that still contains the stale `domain` key from the
earlier call. -/
theorem stale_key_leaks_into_later_call_params :
    (((PyHunter.init "k").email_count (some "a.com") none false
        ⟨200, some (.obj [("data", .null)])⟩).2.email_count_params
        none (some "Acme")).1
      = .ok [("api_key", .str "k"), ("domain", .str "a.com"), ("company", .str "Acme")] ∧
    dictGet (((PyHunter.init "k").email_count (some "a.com") none false
        ⟨200, some (.obj [("data", .null)])⟩).2.email_count_params
        none (some "Acme")).2 "domain" = some (.str "a.com") :=
  ⟨rfl, rfl⟩
